import Mathlib

set_option maxRecDepth 1000000

/-!
Verification of the Zero-Knowledge-Identity-Verification orchestration layer.

Shallow embedding of the JavaScript orchestration code (commitment
computation, attribute encoding, date validation, witness-process bridge,
proof reconciliation/verification, artifact resolution, batch verification)
together with proofs of the specified properties.

Byte strings are `List Nat` (each element a byte value), characters are
Lean `Char` (JS strings over the basic multilingual plane), and machine
32-bit arithmetic is `Nat` reduced modulo `2 ^ 32`.
-/

namespace ZKIV

/-! ## SHA-256 (the `crypto.createHash("sha256")` primitive)

A byte-level implementation of FIPS 180-4 SHA-256, used by
`calculateCommitment` (license_verification.js), by
`WitnessGenerator.calculateCommitmentHex` (witness_generator.js) and by
`computeCommitment` (the registration script). All words are `Nat` kept
below `2 ^ 32`. -/

def M32 : Nat := 4294967296

def add32 (a b : Nat) : Nat := (a + b) % M32

/-- Right rotation of a 32-bit word. -/
def rotr32 (n x : Nat) : Nat := ((x >>> n) ||| (x <<< (32 - n))) % M32

def sha256Ch (x y z : Nat) : Nat := (x &&& y) ^^^ ((x ^^^ (M32 - 1)) &&& z)

def sha256Maj (x y z : Nat) : Nat := (x &&& y) ^^^ (x &&& z) ^^^ (y &&& z)

def bigSigma0 (x : Nat) : Nat := rotr32 2 x ^^^ rotr32 13 x ^^^ rotr32 22 x

def bigSigma1 (x : Nat) : Nat := rotr32 6 x ^^^ rotr32 11 x ^^^ rotr32 25 x

def smallSigma0 (x : Nat) : Nat := rotr32 7 x ^^^ rotr32 18 x ^^^ (x >>> 3)

def smallSigma1 (x : Nat) : Nat := rotr32 17 x ^^^ rotr32 19 x ^^^ (x >>> 10)

/-- The 64 SHA-256 round constants (FIPS 180-4, rendered in decimal). -/
def sha256K : List Nat :=
  [1116352408, 1899447441, 3049323471, 3921009573,
   961987163, 1508970993, 2453635748, 2870763221,
   3624381080, 310598401, 607225278, 1426881987,
   1925078388, 2162078206, 2614888103, 3248222580,
   3835390401, 4022224774, 264347078, 604807628,
   770255983, 1249150122, 1555081692, 1996064986,
   2554220882, 2821834349, 2952996808, 3210313671,
   3336571891, 3584528711, 113926993, 338241895,
   666307205, 773529912, 1294757372, 1396182291,
   1695183700, 1986661051, 2177026350, 2456956037,
   2730485921, 2820302411, 3259730800, 3345764771,
   3516065817, 3600352804, 4094571909, 275423344,
   430227734, 506948616, 659060556, 883997877,
   958139571, 1322822218, 1537002063, 1747873779,
   1955562222, 2024104815, 2227730452, 2361852424,
   2428436474, 2756734187, 3204031479, 3329325298]

/-- The initial SHA-256 hash state (decimal). -/
def sha256H0 : List Nat :=
  [1779033703, 3144134277, 1013904242,
   2773480762, 1359893119, 2600822924,
   528734635, 1541459225]

/-- Big-endian 8-byte encoding of the bit length. -/
def lenBytes (n : Nat) : List Nat :=
  [(n >>> 56) % 256, (n >>> 48) % 256, (n >>> 40) % 256, (n >>> 32) % 256,
   (n >>> 24) % 256, (n >>> 16) % 256, (n >>> 8) % 256, n % 256]

/-- FIPS 180-4 message padding over bytes. -/
def padMessage (msg : List Nat) : List Nat :=
  msg ++ 0x80 :: List.replicate ((119 - msg.length % 64) % 64) 0
      ++ lenBytes (8 * msg.length)

/-- Big-endian 32-bit words from bytes. -/
def bytesToWords : List Nat → List Nat
  | b0 :: b1 :: b2 :: b3 :: rest =>
      (((b0 * 256 + b1) * 256 + b2) * 256 + b3) :: bytesToWords rest
  | _ => []

/-- Split a byte list into `n` successive 64-byte blocks. -/
def takeBlocks : Nat → List Nat → List (List Nat)
  | 0, _ => []
  | n + 1, l => l.take 64 :: takeBlocks n (l.drop 64)

def wAt (w : List Nat) (i : Nat) : Nat := w.getD i 0

/-- Extend the 16 message-schedule words by `n` further words. -/
def extendW : Nat → List Nat → List Nat
  | 0, w => w
  | n + 1, w =>
      extendW n (w ++ [add32 (add32 (smallSigma1 (wAt w (w.length - 2)))
                                    (wAt w (w.length - 7)))
                       (add32 (smallSigma0 (wAt w (w.length - 15)))
                              (wAt w (w.length - 16)))])

/-- One SHA-256 round on the eight working registers. -/
def sha256Round (st : List Nat) (kw : Nat × Nat) : List Nat :=
  match st with
  | [a, b, c, d, e, f, g, h] =>
      let t1 := add32 h (add32 (bigSigma1 e) (add32 (sha256Ch e f g) (add32 kw.1 kw.2)))
      let t2 := add32 (bigSigma0 a) (sha256Maj a b c)
      [add32 t1 t2, a, b, c, add32 d t1, e, f, g]
  | other => other

/-- Compress one 64-byte block into the hash state. -/
def sha256Block (hs : List Nat) (block : List Nat) : List Nat :=
  let w := extendW 48 (bytesToWords block)
  let st := (sha256K.zip w).foldl sha256Round hs
  List.zipWith add32 hs st

/-- Big-endian bytes of a 32-bit word. -/
def wordBytes (x : Nat) : List Nat :=
  [(x >>> 24) % 256, (x >>> 16) % 256, (x >>> 8) % 256, x % 256]

/-- SHA-256 digest (32 bytes) of a byte string. -/
def sha256Bytes (msg : List Nat) : List Nat :=
  let p := padMessage msg
  ((takeBlocks (p.length / 64) p).foldl sha256Block sha256H0).flatMap wordBytes

/-- Lowercase hex digit characters, as produced by JS `toString(16)`
(`Nat.digitChar` maps 10–15 to `a`–`f`). -/
def hexPair (b : Nat) : List Char := [Nat.digitChar (b / 16 % 16), Nat.digitChar (b % 16)]

/-- `Buffer.digest("hex")`: lowercase hex string of the digest bytes. -/
def bytesToHex (bs : List Nat) : List Char := bs.flatMap hexPair

/-! ## UTF-8 encoding (the `utf8` encoding argument of `hash.update`) -/

/-- UTF-8 bytes of one code point. -/
def utf8Bytes (c : Char) : List Nat :=
  let n := c.toNat
  if n < 0x80 then [n]
  else if n < 0x800 then
    [0xC0 ||| (n >>> 6), 0x80 ||| (n &&& 0x3F)]
  else if n < 0x10000 then
    [0xE0 ||| (n >>> 12), 0x80 ||| ((n >>> 6) &&& 0x3F), 0x80 ||| (n &&& 0x3F)]
  else
    [0xF0 ||| (n >>> 18), 0x80 ||| ((n >>> 12) &&& 0x3F),
     0x80 ||| ((n >>> 6) &&& 0x3F), 0x80 ||| (n &&& 0x3F)]

/-- UTF-8 bytes of a string (JS strings are modelled as `List Char`). -/
def utf8Encode (s : List Char) : List Nat := s.flatMap utf8Bytes

/-- The NUL character used by the JS padding `"\0"`. -/
def nul : Char := Char.ofNat 0

/-- JS `str.padEnd(n, c)`: append copies of `c` up to length `n`
(no-op when the string is already at least that long). -/
def padEnd (s : List Char) (n : Nat) (c : Char) : List Char :=
  s ++ List.replicate (n - s.length) c

namespace LicenseVerificationSystem

/-- `LicenseVerificationSystem.calculateCommitment` (license_verification.js):
pad name and surname to 64 characters with NUL, concatenate
name + surname + birthDate + license + expDate + nonce, and return the
lowercase hex SHA-256 digest of the UTF-8 bytes of that concatenation. -/
def calculateCommitment (name surname birthDate license expDate nonce : List Char) :
    List Char :=
  let nameStr := padEnd name 64 nul
  let surnameStr := padEnd surname 64 nul
  let fullData := nameStr ++ surnameStr ++ birthDate ++ license ++ expDate ++ nonce
  bytesToHex (sha256Bytes (utf8Encode fullData))

end LicenseVerificationSystem

namespace WitnessGenerator

/-- `WitnessGenerator.calculateCommitmentHex` (witness_generator.js):
the same computation as `LicenseVerificationSystem.calculateCommitment`. -/
def calculateCommitmentHex (name surname birthDate license expDate nonce : List Char) :
    List Char :=
  let nameStr := padEnd name 64 nul
  let surnameStr := padEnd surname 64 nul
  let fullData := nameStr ++ surnameStr ++ birthDate ++ license ++ expDate ++ nonce
  bytesToHex (sha256Bytes (utf8Encode fullData))

/-- Value of a hex digit character, as `parseInt(-, 16)` maps digits
(characters outside the hex alphabet give NaN in JS; the claims only
evaluate this on hex digits, where the value below is exact). -/
def hexDigitVal (c : Char) : Nat :=
  if '0' ≤ c ∧ c ≤ '9' then c.toNat - 48
  else if 'a' ≤ c ∧ c ≤ 'f' then c.toNat - 87
  else if 'A' ≤ c ∧ c ≤ 'F' then c.toNat - 55
  else 0

/-- The 8 bits of a byte, most significant first: `(byte >> j) & 1` for
`j = 7 .. 0`. -/
def byteBits (b : Nat) : List Nat :=
  [(b >>> 7) &&& 1, (b >>> 6) &&& 1, (b >>> 5) &&& 1, (b >>> 4) &&& 1,
   (b >>> 3) &&& 1, (b >>> 2) &&& 1, (b >>> 1) &&& 1, b &&& 1]

/-- `WitnessGenerator.hexToBitArray` (witness_generator.js, identical in
license_verification.js): take the hex characters two at a time,
`parseInt` the pair as a byte, and push its 8 bits most significant
first.  On an odd-length string the final lone character is parsed as a
(one-digit) byte, exactly as `substr(i, 2)` yields a 1-character string. -/
def hexToBitArray : List Char → List Nat
  | c1 :: c2 :: rest => byteBits (16 * hexDigitVal c1 + hexDigitVal c2) ++ hexToBitArray rest
  | [c] => byteBits (hexDigitVal c)
  | [] => []

/-- `byte += bits[i + j] * Math.pow(2, 7 - j)` for the `j < 8` positions
that exist: dot product of (at most) the first 8 bits with the weights
128 … 1, missing trailing positions contributing nothing. -/
def bitsByte (l : List Nat) : Nat :=
  (List.zipWith (· * ·) l [128, 64, 32, 16, 8, 4, 2, 1]).sum

/-- JS `String.prototype.padStart(2, "0")`. -/
def padStart2 (l : List Char) : List Char :=
  List.replicate (2 - l.length) '0' ++ l

/-- `WitnessGenerator.bitArrayToHex` (witness_generator.js): group the
bits 8 at a time, rebuild each byte, and append
`byte.toString(16).padStart(2, "0")` (`Nat.toDigits 16` is JS
`toString(16)` on naturals: lowercase digits, `"0"` for zero). -/
def bitArrayToHex : List Nat → List Char
  | b0 :: b1 :: b2 :: b3 :: b4 :: b5 :: b6 :: b7 :: rest =>
      padStart2 (Nat.toDigits 16 (bitsByte [b0, b1, b2, b3, b4, b5, b6, b7]))
        ++ bitArrayToHex rest
  | [] => []
  | l => padStart2 (Nat.toDigits 16 (bitsByte l))

end WitnessGenerator

/-! ## The registration script (`registerUser` / `computeCommitment` in setup.sh) -/

/-- Big-endian value of a byte string (`BigInt("0x" + bytes.toString("hex"))`). -/
def bytesBE (bs : List Nat) : Nat := bs.foldl (fun a b => a * 256 + b) 0

/-- `computeCommitment` (registration script): SHA-256 the input string and
split the 32-byte digest into two 128-bit integers, returned as decimal
strings. -/
def computeCommitment (inputString : List Char) : List String :=
  let hash := sha256Bytes (utf8Encode inputString)
  [Nat.repr (bytesBE (hash.take 16)), Nat.repr (bytesBE (hash.drop 16))]

/-- The concatenation hashed by `registerUser` (registration script):
the template literal concatenates the raw fields with **no padding**. -/
def registerUserConcat (name surname dob licenseCategory expDate nonce : List Char) :
    List Char :=
  name ++ surname ++ dob ++ licenseCategory ++ expDate ++ nonce

/-- The commitment `registerUser` stores in the public registry. -/
def registerUserCommitment (name surname dob licenseCategory expDate nonce : List Char) :
    List String :=
  computeCommitment (registerUserConcat name surname dob licenseCategory expDate nonce)

/-- The commitment bytes mandated by the specification: the SHA-256
digest, over UTF-8 bytes, of padded-name + padded-surname + dob-string +
category + expiration-string + nonce (padding to 64 with NUL). -/
def specCommitmentBytes (name surname dob category expiration nonce : List Char) :
    List Nat :=
  sha256Bytes (utf8Encode
    (padEnd name 64 nul ++ padEnd surname 64 nul ++ dob ++ category ++ expiration ++ nonce))

/-! ## utils.js: string encoding and date validation -/

/-- `stringToAsciiArray` (utils.js): an array of `len` zeros whose first
`min(str.length, len)` entries are overwritten with the character codes,
i.e. the first `len` character codes followed by zero padding. -/
def stringToAsciiArray (s : List Char) (len : Nat) : List Nat :=
  (s.take len).map Char.toNat ++ List.replicate (len - s.length) 0

def isDigitChar (c : Char) : Bool := '0' ≤ c && c ≤ '9'

/-- The regular expression `^\d{4}-\d{2}-\d{2}$`. -/
def matchesDateFormat : List Char → Bool
  | [y1, y2, y3, y4, s1, m1, m2, s2, d1, d2] =>
      isDigitChar y1 && isDigitChar y2 && isDigitChar y3 && isDigitChar y4 &&
      s1 = '-' && isDigitChar m1 && isDigitChar m2 &&
      s2 = '-' && isDigitChar d1 && isDigitChar d2
  | _ => false

/-- `formatDateToAscii` (utils.js): reject strings that fail the date
regular expression, otherwise encode the 10 characters. -/
def formatDateToAscii (dateStr : List Char) : Except String (List Nat) :=
  if matchesDateFormat dateStr then .ok (stringToAsciiArray dateStr 10)
  else .error "Format de date invalide. Utilisez YYYY-MM-DD"

def digitVal (c : Char) : Nat := c.toNat - 48

/-- The numeric `(year, month, day)` read off a format-matching string,
as `input.split("-").map(Number)` produces. -/
def dateComponents (s : List Char) : Nat × Nat × Nat :=
  match s with
  | [y1, y2, y3, y4, _, m1, m2, _, d1, d2] =>
      (1000 * digitVal y1 + 100 * digitVal y2 + 10 * digitVal y3 + digitVal y4,
       10 * digitVal m1 + digitVal m2,
       10 * digitVal d1 + digitVal d2)
  | _ => (0, 0, 0)

def isLeapYear (y : Nat) : Bool := (y % 4 = 0 && y % 100 ≠ 0) || y % 400 = 0

def daysInMonth (y m : Nat) : Nat :=
  if m = 2 then (if isLeapYear y then 29 else 28)
  else if m = 4 ∨ m = 6 ∨ m = 9 ∨ m = 11 then 30
  else 31

/-- A real calendar date. -/
def isRealDate (y m d : Nat) : Bool :=
  1 ≤ m && m ≤ 12 && 1 ≤ d && d ≤ daysInMonth y m

/-- Serial day number of a civil date (days since 0000-03-01, the
standard era-based conversion): the model of the ECMAScript time value
a date-only string denotes. -/
def rataDie (y m d : Nat) : Nat :=
  let ys := if m ≤ 2 then y - 1 else y
  let era := ys / 400
  let yoe := ys % 400
  let mp := (m + 9) % 12
  let doy := (153 * mp + 2) / 5 + d - 1
  let doe := yoe * 365 + yoe / 4 - yoe / 100 + doy
  era * 146097 + doe

/-- Inverse of `rataDie`: civil `(year, month, day)` of a serial day
number, the model of the ECMAScript UTC `getFullYear / getMonth /
getDate` accessors (the environment local time zone is modelled as UTC,
the container default for Node). -/
def civilOfDays (n : Nat) : Nat × Nat × Nat :=
  let era := n / 146097
  let doe := n % 146097
  let yoe := (doe - doe / 1460 + doe / 36524 - doe / 146096) / 365
  let y := yoe + era * 400
  let doy := doe - (365 * yoe + yoe / 4 - yoe / 100)
  let mp := (5 * doy + 2) / 153
  let d := doy - (153 * mp + 2) / 5 + 1
  let m := if mp < 10 then mp + 3 else mp - 9
  (if m ≤ 2 then y + 1 else y, m, d)

/-- Model of `new Date("YYYY-MM-DD")`: a conforming date-only string
denotes UTC midnight of that calendar day; a string whose components are
out of range (such as `2000-02-30`), or that does not conform at all, is
an Invalid Date (ECMA-262: illegal values mean the string is not a valid
instance of the Date Time String Format), modelled as `none`. -/
def jsDateParse (s : List Char) : Option Nat :=
  if matchesDateFormat s then
    let (y, m, d) := dateComponents s
    if isRealDate y m d then some (rataDie y m d) else none
  else none

/-- `validateDate` (utils.js): reject on the regular expression, then
parse with `new Date` and compare `getFullYear / getMonth / getDate`
against the split numeric components (`getMonth` is 0-based, hence the
`month - 1`); the accessors of an Invalid Date are NaN and compare
unequal to every number.  Returns `.ok ()` for the JS `true`. -/
def validateDate (input : List Char) : Except String Unit :=
  if matchesDateFormat input then
    let (year, month, day) := dateComponents input
    match jsDateParse input with
    | none => .error "Date invalide"
    | some t =>
        let (gy, gm, gd) := civilOfDays t
        if gy ≠ year ∨ gm - 1 ≠ month - 1 ∨ gd ≠ day then .error "Date invalide"
        else .ok ()
  else .error "Format de date invalide. Utilisez YYYY-MM-DD"

/-! ## proof-generator.js: input validation and circuit input preparation -/

namespace ProofGenerator

/-- One user input record, as collected by the interactive prompts. -/
structure UserInput where
  name : List Char
  surname : List Char
  dob : List Char
  license : List Char

/-- `ProofGenerator.validateInputs` (proof-generator.js): the list of
error strings pushed (empty-or-overlong name and surname, the date
regular expression, and license domain membership). An empty JS string
is falsy, hence the zero-length disjunct for `!userInput.name`. -/
def validateInputsErrors (u : UserInput) : List String :=
  (if u.name.length = 0 ∨ u.name.length > 16 then
    ["Nom invalide (max 16 caractères)"] else []) ++
  (if u.surname.length = 0 ∨ u.surname.length > 16 then
    ["Prénom invalide (max 16 caractères)"] else []) ++
  (if matchesDateFormat u.dob then [] else
    ["Date de naissance invalide (format YYYY-MM-DD)"]) ++
  (if u.license = ['A'] ∨ u.license = ['B'] ∨ u.license = ['C'] then [] else
    ["Type de permis invalide (A, B, ou C)"])

/-- The circuit input object built by `ProofGenerator.generateProof`. -/
structure CircuitInput where
  name : List Nat
  surname : List Nat
  dob : List Nat
  license : List Nat

/-- The validation and encoding front end of `ProofGenerator.generateProof`
(proof-generator.js): throw when `validateInputs` collected errors, throw
when the external witness script is missing, then build the circuit input
with `stringToAsciiArray` at widths 16/16, `formatDateToAscii`, and the
single license character code. -/
def generateProofInput (u : UserInput) (witnessScriptExists : Bool) :
    Except String CircuitInput :=
  let errors := validateInputsErrors u
  if errors ≠ [] then
    .error ("Erreurs de validation:\n" ++ String.intercalate "\n" errors)
  else if !witnessScriptExists then
    .error ("Script generate_witness.js requis mais non trouvé. " ++
      "Cette application nécessite le script externe.")
  else
    match formatDateToAscii u.dob with
    | .error e => .error e
    | .ok dobArr =>
        .ok ⟨stringToAsciiArray u.name 16, stringToAsciiArray u.surname 16,
             dobArr, [(u.license.headD nul).toNat]⟩

end ProofGenerator

/-! ## proof-generator.js: the external witness-script bridge -/

namespace ProofGenerator

/-- A JS error as observed by the `catch` block of
`generateWitnessWithExternalScript`: optional `code` and `signal`
properties and a message. -/
structure JsError where
  code : Option String
  signal : Option String
  message : String
deriving DecidableEq

/-- The observable outcome of one `execAsync` invocation plus the state
of the output file afterwards: `execErr` is the rejection of the child
process promise (`none` when the process exited cleanly), `outExists`
and `outSize` describe the witness output file. -/
structure WitnessRun where
  execErr : Option JsError
  outExists : Bool
  outSize : Nat

/-- The body of the `try` block: the `execAsync` call followed by the
existence and size checks on the output file. -/
def witnessTryBody (r : WitnessRun) : Except JsError Unit :=
  match r.execErr with
  | some e => .error e
  | none =>
      if !r.outExists then
        .error ⟨none, none,
          "Le script n\x27a pas généré le fichier witness. " ++
          "Vérifiez que le script fonctionne correctement."⟩
      else if r.outSize = 0 then
        .error ⟨none, none, "Le fichier witness généré est vide"⟩
      else .ok ()

/-- The `catch` block: map recognized error codes and signals to fixed
messages and everything else to a generic wrapper around the original
message. -/
def classifyWitnessError (e : JsError) : String :=
  if e.code = some "ENOENT" then
    "Node.js non trouvé dans le PATH. Assurez-vous que Node.js est installé et accessible."
  else if e.signal = some "SIGTERM" then
    "Timeout: Le script de génération de witness a pris plus de 60 secondes"
  else if e.code = some "EMFILE" ∨ e.code = some "ENFILE" then
    "Trop de fichiers ouverts. Redémarrez l\x27application."
  else
    "Erreur lors de l\x27exécution du script witness: " ++ e.message ++
    "\n\nVérifiez que:\n- Le script generate_witness.js fonctionne correctement" ++
    "\n- Les fichiers WASM et input sont valides" ++
    "\n- Vous avez les permissions d\x27écriture"

/-- `ProofGenerator.generateWitnessWithExternalScript`
(proof-generator.js): run the script, then require that the output file
exists and is non-empty; every failure is rethrown through
`classifyWitnessError`. -/
def generateWitnessWithExternalScript (r : WitnessRun) : Except String Unit :=
  match witnessTryBody r with
  | .ok () => .ok ()
  | .error e => .error (classifyWitnessError e)

/-! ### Temporary-file lifecycle of `generateProofWithExternalScript` -/

/-- `input_${timestamp}.json`. -/
def inputFileName (t : Nat) : String := "input_" ++ Nat.repr t ++ ".json"

/-- `witness_${timestamp}.wtns`. -/
def witnessFileName (t : Nat) : String := "witness_" ++ Nat.repr t ++ ".wtns"

/-- `ProofGenerator.cleanupTempFiles`: remove each listed file if present
(removal of an absent file is a no-op). -/
def cleanupTempFiles (fs : List String) (files : List String) : List String :=
  files.foldl (fun acc f => acc.filter (· ≠ f)) fs

/-- The observable outcomes of the two fallible stages inside the inner
`try` of `generateProofWithExternalScript`: the witness-script run and
the snarkjs proving call (`none` = success). -/
structure ProofGenRun where
  timestamp : Nat
  witnessErr : Option String
  proveErr : Option String

/-- The temporary-file flow of
`ProofGenerator.generateProofWithExternalScript` (proof-generator.js):
write `input_${t}.json`, run the witness script (which writes
`witness_${t}.wtns` on success), prove, and on both the success path and
the `catch` path call `cleanupTempFiles` on exactly those two names
before returning or rethrowing.  Returns the outcome together with the
final file-system state. -/
def generateProofWithExternalScriptFiles (r : ProofGenRun) (fs0 : List String) :
    Except String Unit × List String :=
  let inputFile := inputFileName r.timestamp
  let witnessFile := witnessFileName r.timestamp
  let fs1 := fs0 ++ [inputFile]
  match r.witnessErr with
  | some e =>
      (.error ("Génération de preuve échouée: " ++ e),
       cleanupTempFiles fs1 [inputFile, witnessFile])
  | none =>
      let fs2 := fs1 ++ [witnessFile]
      match r.proveErr with
      | some e =>
          (.error ("Génération de preuve échouée: " ++ e),
           cleanupTempFiles fs2 [inputFile, witnessFile])
      | none => (.ok (), cleanupTempFiles fs2 [inputFile, witnessFile])

end ProofGenerator

/-! ## proof-verifier.js: proof reconciliation and verification -/

namespace ProofVerifier

/-- A JSON value as far as the verifier inspects one: strings, numbers
and arrays. -/
inductive JVal where
  | str (s : String)
  | num (n : Nat)
  | arr (l : List JVal)

/-- JS truthiness of such a value (objects and arrays are truthy, `""`
and `0` are falsy). -/
def jsTruthy : JVal → Bool
  | .str s => s ≠ ""
  | .num n => n ≠ 0
  | .arr _ => true

/-- Truthiness of an optional property (`undefined` is falsy). -/
def optTruthy : Option JVal → Bool
  | some v => jsTruthy v
  | none => false

/-- The three pairing components of a Groth16 proof object, each an
optional property of the JSON object. -/
structure BareProof where
  pi_a : Option JVal
  pi_b : Option JVal
  pi_c : Option JVal

/-- A public signal as validated by the verifier: a string, a number, or
a value of any other type. -/
inductive JsSignal where
  | str (v : String)
  | num (n : Nat)
  | other

/-- A proof payload object: it may carry a `proof` property and a
`publicSignals` property (the container shape), and it carries its own
`pi_a / pi_b / pi_c` properties (the bare shape), collected in `bare`. -/
structure ProofPayload where
  proof : Option BareProof
  publicSignals : Option (List JsSignal)
  bare : BareProof

/-- Result of `extractProofData`: the proof object and the signals, with
`none` signals modelling the JS `null` of the missing-public-signals
path. -/
structure Extracted where
  proof : BareProof
  publicSignals : Option (List JsSignal)

/-- `ProofVerifier.extractProofData` (proof-verifier.js): a non-object
input is invalid; a container holding both `proof` and `publicSignals`
wins; otherwise a payload with truthy `pi_a`, `pi_b`, `pi_c` is a bare
proof, taking the separately supplied signals when they are an array and
`null` signals otherwise; anything else is an unrecognized format.
`publicSignalsInput` is `none` when no signals were supplied or the
supplied value is not an array (`Array.isArray` guard). -/
def extractProofData (proofInput : Option ProofPayload)
    (publicSignalsInput : Option (List JsSignal)) : Except String Extracted :=
  match proofInput with
  | none => .error "Données de preuve invalides"
  | some p =>
      match p.proof, p.publicSignals with
      | some pr, some sig => .ok ⟨pr, some sig⟩
      | _, _ =>
          if optTruthy p.bare.pi_a && optTruthy p.bare.pi_b && optTruthy p.bare.pi_c then
            match publicSignalsInput with
            | some l => .ok ⟨p.bare, some l⟩
            | none => .ok ⟨p.bare, none⟩
          else
            .error ("Format de preuve non reconnu. " ++
              "Fichier doit contenir pi_a, pi_b, pi_c ou proof/publicSignals")

/-- `ProofVerifier.validateProofFormat` (proof-verifier.js): the three
components must be present (truthy), `pi_a` and `pi_c` must be arrays of
3 elements, and `pi_b` an array of 3 whose first element is an array. -/
def validateProofFormat (p : BareProof) : Except String Unit :=
  if !optTruthy p.pi_a then .error "Champ manquant dans la preuve: pi_a"
  else if !optTruthy p.pi_b then .error "Champ manquant dans la preuve: pi_b"
  else if !optTruthy p.pi_c then .error "Champ manquant dans la preuve: pi_c"
  else
    match p.pi_a with
    | some (.arr la) =>
        if la.length ≠ 3 then
          .error "Format invalide pour pi_a (doit être un tableau de 3 éléments)"
        else
          match p.pi_b with
          | some (.arr lb) =>
              if lb.length ≠ 3 || (match lb with | .arr _ :: _ => false | _ => true) then
                .error "Format invalide pour pi_b (doit être un tableau de 3 tableaux)"
              else
                match p.pi_c with
                | some (.arr lc) =>
                    if lc.length ≠ 3 then
                      .error "Format invalide pour pi_c (doit être un tableau de 3 éléments)"
                    else .ok ()
                | _ => .error "Format invalide pour pi_c (doit être un tableau de 3 éléments)"
          | _ => .error "Format invalide pour pi_b (doit être un tableau de 3 tableaux)"
    | _ => .error "Format invalide pour pi_a (doit être un tableau de 3 éléments)"

/-- The regular expression `^\d+$`. -/
def isDigitString (v : String) : Bool :=
  v ≠ "" && v.toList.all isDigitChar

/-- The per-index loop of `validatePublicSignals`. -/
def checkSignals : Nat → List JsSignal → Except String Unit
  | _, [] => .ok ()
  | i, s :: rest =>
      match s with
      | .num _ => checkSignals (i + 1) rest
      | .str v =>
          if isDigitString v then checkSignals (i + 1) rest
          else .error ("Signal public à l\x27index " ++ Nat.repr i ++
            " contient une chaîne non numérique: \"" ++ v ++ "\"")
      | .other => .error ("Signal public à l\x27index " ++ Nat.repr i ++
          " doit être un nombre ou une chaîne numérique")

/-- `ProofVerifier.validatePublicSignals` (proof-verifier.js): `null`
signals are missing, an empty array has no signals, and every entry must
be a number or a digit string. -/
def validatePublicSignals (signals : Option (List JsSignal)) : Except String Unit :=
  match signals with
  | none => .error "Signaux publics manquants"
  | some l =>
      if l.length = 0 then .error "Aucun signal public fourni"
      else checkSignals 0 l

/-- Presence (truthiness) of the four fields of a verification key file. -/
structure VKey where
  vk_alpha_1 : Bool
  vk_beta_2 : Bool
  vk_gamma_2 : Bool
  vk_delta_2 : Bool

/-- `ProofVerifier.validateProofConsistency` (proof-verifier.js): format
check, signals check, verification-key existence, then the key is read
and its four fields checked (a read failure or a missing field surfaces
through the inner `catch (jsonError)` wrapper); every failure is
rethrown with the `Validation échouée` prefix by the outer `catch`.
`vkeyRead` is the outcome of `fs.readJson` on the key path. -/
def validateProofConsistency (p : BareProof) (signals : Option (List JsSignal))
    (vkeyExists : Bool) (vkeyRead : Except String VKey) : Except String Unit :=
  let inner : Except String Unit :=
    match validateProofFormat p with
    | .error e => .error e
    | .ok () =>
        match validatePublicSignals signals with
        | .error e => .error e
        | .ok () =>
            if !vkeyExists then .error "Fichier de clé de vérification non trouvé"
            else
              match vkeyRead with
              | .error m => .error ("Erreur de lecture de la clé de vérification: " ++ m)
              | .ok k =>
                  if !(k.vk_alpha_1 && k.vk_beta_2 && k.vk_gamma_2 && k.vk_delta_2) then
                    .error ("Erreur de lecture de la clé de vérification: " ++
                      "Structure de clé de vérification invalide")
                  else .ok ()
  match inner with
  | .ok () => .ok ()
  | .error e => .error ("Validation échouée: " ++ e)

/-- `parsePublicSignals` (utils.js): `signals[0] === "1" || signals[0] === 1`. -/
def parseHasLicenseA : List JsSignal → Bool
  | .str "1" :: _ => true
  | .num 1 :: _ => true
  | _ => false

/-- The verification result object assembled on the success path. -/
structure VerifyResult where
  valid : Bool
  publicSignals : List JsSignal
  hasLicenseA : Bool

/-- The body of the `try` block of `ProofVerifier.verifyProof`:
extraction, consistency validation, then the snarkjs backend
(`backend` is the outcome of `snarkjs.groth16.verify`: a boolean answer
or a thrown error message). -/
def verifyProofTryBody (proofInput : Option ProofPayload)
    (publicSignalsInput : Option (List JsSignal)) (vkeyExists : Bool)
    (vkeyRead : Except String VKey) (backend : Except String Bool) :
    Except String VerifyResult :=
  match extractProofData proofInput publicSignalsInput with
  | .error e => .error e
  | .ok ex =>
      match validateProofConsistency ex.proof ex.publicSignals vkeyExists vkeyRead with
      | .error e => .error e
      | .ok () =>
          match backend with
          | .error m => .error m
          | .ok v =>
              let sigs := ex.publicSignals.getD []
              .ok ⟨v, sigs, parseHasLicenseA sigs⟩

/-- `ProofVerifier.verifyProof` (proof-verifier.js): the `catch` block
rethrows every failure as a new error with the fixed prefix
`Erreur lors de la vérification: ` followed by the original message. -/
def verifyProof (proofInput : Option ProofPayload)
    (publicSignalsInput : Option (List JsSignal)) (vkeyExists : Bool)
    (vkeyRead : Except String VKey) (backend : Except String Bool) :
    Except String VerifyResult :=
  match verifyProofTryBody proofInput publicSignalsInput vkeyExists vkeyRead backend with
  | .ok r => .ok r
  | .error e => .error ("Erreur lors de la vérification: " ++ e)

end ProofVerifier

/-! ## app.js: required-file resolution and menu gating -/

namespace ZKPLicenseApp

/-- One slot of the `filesToCheck` table: primary filename and the
alternate filenames, in their listed order. -/
structure FileSlot where
  primary : String
  alt : List String

/-- The `filesToCheck` table of `ZKPLicenseApp.checkRequiredFiles`
(app.js), in source order: wasm, zkey, verification key, witness script. -/
def filesToCheck : List FileSlot :=
  [⟨"circuit.wasm", ["LicenseA.wasm", "LicenseB.wasm", "LicenseC.wasm"]⟩,
   ⟨"circuit.zkey", ["LicenseA.zkey", "LicenseB.zkey", "LicenseC.zkey"]⟩,
   ⟨"verification_key.json", ["vkey.json"]⟩,
   ⟨"generate_witness.cjs", ["witness.js"]⟩]

/-- Per-slot resolution of `checkRequiredFiles`: probe the primary
filename, then the alternates in order, binding to the first existing
path (`ex` is `fs.pathExists` on the application directory). -/
def resolveSlot (ex : String → Bool) (s : FileSlot) : Option String :=
  if ex s.primary then some s.primary else s.alt.find? ex

/-- The `currentFiles` record after `checkRequiredFiles` runs from the
constructor state (all four slots `null`). -/
structure CurrentFiles where
  wasm : Option String
  zkey : Option String
  vkey : Option String
  witness : Option String

/-- `ZKPLicenseApp.checkRequiredFiles` (app.js), slot bindings. -/
def checkRequiredFiles (ex : String → Bool) : CurrentFiles :=
  ⟨resolveSlot ex ⟨"circuit.wasm", ["LicenseA.wasm", "LicenseB.wasm", "LicenseC.wasm"]⟩,
   resolveSlot ex ⟨"circuit.zkey", ["LicenseA.zkey", "LicenseB.zkey", "LicenseC.zkey"]⟩,
   resolveSlot ex ⟨"verification_key.json", ["vkey.json"]⟩,
   resolveSlot ex ⟨"generate_witness.cjs", ["witness.js"]⟩⟩

/-- The missing-files report printed when fewer than four slots
resolved: one line per unresolved slot. -/
def missingReport (cf : CurrentFiles) : List String :=
  (if cf.wasm.isNone then ["Fichier WASM du circuit (.wasm)"] else []) ++
  (if cf.zkey.isNone then ["Clé de preuve (.zkey)"] else []) ++
  (if cf.vkey.isNone then ["Clé de vérification (.json)"] else []) ++
  (if cf.witness.isNone then ["Script generate_witness.cjs (OBLIGATOIRE)"] else [])

/-- `allFilesPresent` in `ZKPLicenseApp.mainMenu` (app.js). -/
def allFilesPresent (cf : CurrentFiles) : Bool :=
  cf.wasm.isSome && cf.zkey.isSome && cf.vkey.isSome && cf.witness.isSome

/-- The `disabled` flag of the `Générer une preuve` menu choice:
disabled exactly when a required file is missing. -/
def generateChoiceDisabled (cf : CurrentFiles) : Bool :=
  !allFilesPresent cf

end ZKPLicenseApp

/-! ## proof_verifier.js (standalone): batch verification -/

namespace BatchVerifier

/-- The observable outcome of `snarkjs.groth16.verify` for one proof:
an answer with the measured verification time, or a thrown error. -/
inductive BackendOutcome where
  | answer (valid : Bool) (time : Nat)
  | failure (msg : String)

/-- One per-proof result object, as `ProofVerifier.verifyProof`
(standalone proof_verifier.js) returns it and `batchVerify` records it:
the valid flag, the verification time when the backend answered, the
caught error message when it threw, and the status message. -/
structure ItemResult where
  index : Nat
  valid : Bool
  verificationTime : Option Nat
  errMsg : Option String
  message : String
deriving DecidableEq

/-- `ProofVerifier.verifyProof` (standalone proof_verifier.js) on one
proof: a backend answer yields `valid`/`verificationTime`, a backend
throw is caught and yields an invalid result carrying the error
message.  The index is filled in by the batch loop. -/
def verifyOne (i : Nat) : BackendOutcome → ItemResult
  | .answer v t =>
      ⟨i, v, some t, none, if v then "Preuve valide" else "Preuve invalide"⟩
  | .failure m => ⟨i, false, none, some m, "Erreur de vérification"⟩

/-- The result-collecting loop of `ProofVerifier.batchVerify`
(standalone proof_verifier.js): each proof is verified independently and
its result pushed in input order; a failing item is recorded and the
loop continues. -/
def batchResults : Nat → List BackendOutcome → List ItemResult
  | _, [] => []
  | i, o :: rest => verifyOne i o :: batchResults (i + 1) rest

/-- The aggregate report returned by `batchVerify` (`averageTime` is the
JS float division `totalTime / proofs.length`, modelled exactly as a
rational). -/
structure BatchReport where
  total : Nat
  valid : Nat
  invalid : Nat
  totalTime : Nat
  averageTime : ℚ
  results : List ItemResult

/-- `ProofVerifier.batchVerify` (standalone proof_verifier.js).
`elapsed` is the wall-clock time `Date.now() - startTime` observed for
the whole batch. -/
def batchVerify (items : List BackendOutcome) (elapsed : Nat) : BatchReport :=
  let rs := batchResults 0 items
  let validCount := rs.countP (·.valid)
  ⟨items.length, validCount, items.length - validCount, elapsed,
   (elapsed : ℚ) / (items.length : ℚ), rs⟩

end BatchVerifier

/-! ## Helper lemmas -/

/-- Decimal value of a digit string. -/
def decValue (l : List Char) : Nat := l.foldl (fun a c => 10 * a + (c.toNat - 48)) 0

theorem toDigitsCore_acc (f : Nat) : ∀ (n : Nat) (ds : List Char),
    Nat.toDigitsCore 10 f n ds = Nat.toDigitsCore 10 f n [] ++ ds := by
  induction f with
  | zero => intro n ds; simp [Nat.toDigitsCore]
  | succ f ih =>
    intro n ds
    simp only [Nat.toDigitsCore]
    by_cases h : n / 10 = 0
    · simp [h]
    · simp only [h, if_false]
      rw [ih (n / 10) (Nat.digitChar (n % 10) :: ds),
          ih (n / 10) [Nat.digitChar (n % 10)]]
      simp

theorem digitChar_toNat : ∀ m < 10, (Nat.digitChar m).toNat = 48 + m := by decide

theorem decValue_toDigitsCore (f : Nat) : ∀ n < f,
    decValue (Nat.toDigitsCore 10 f n []) = n := by
  induction f with
  | zero => omega
  | succ f ih =>
    intro n hn
    simp only [Nat.toDigitsCore]
    by_cases h : n / 10 = 0
    · have hlt : n < 10 := (Nat.div_eq_zero_iff (by omega)).mp h
      simp [h, decValue, Nat.mod_eq_of_lt hlt]
      rw [digitChar_toNat n hlt]
      omega
    · simp only [h, if_false]
      rw [toDigitsCore_acc]
      have h10 : n / 10 < f := by
        have h1 : n / 10 < n := Nat.div_lt_self (by omega) (by omega)
        omega
      have := ih (n / 10) h10
      simp only [decValue, List.foldl_append, List.foldl] at this ⊢
      rw [this]
      have hm : (Nat.digitChar (n % 10)).toNat = 48 + n % 10 :=
        digitChar_toNat (n % 10) (Nat.mod_lt n (by omega))
      rw [hm]
      omega

theorem natRepr_injective : Function.Injective Nat.repr := by
  intro m n h
  have hm := decValue_toDigitsCore (m + 1) m (Nat.lt_succ_self m)
  have hn := decValue_toDigitsCore (n + 1) n (Nat.lt_succ_self n)
  have hdig : Nat.toDigits 10 m = Nat.toDigits 10 n := by
    have h2 : (Nat.toDigits 10 m).asString = (Nat.toDigits 10 n).asString := h
    have h3 := congrArg String.data h2
    simpa [List.asString] using h3
  rw [Nat.toDigits] at hdig
  rw [Nat.toDigits] at hdig
  rw [hdig] at hm
  omega

theorem string_append_inner_inj (p q a b : String)
    (h : p ++ a ++ q = p ++ b ++ q) : a = b := by
  have hd : p.data ++ a.data ++ q.data = p.data ++ b.data ++ q.data := by
    have := congrArg String.data h
    simpa [String.data_append] using this
  have h1 : a.data ++ q.data = b.data ++ q.data := by
    rw [List.append_assoc, List.append_assoc] at hd
    exact List.append_cancel_left hd
  have h2 : a.data = b.data := List.append_cancel_right h1
  exact String.ext h2

namespace ProofGenerator

theorem mem_cleanup (fs : List String) (a b x : String) :
    x ∈ cleanupTempFiles fs [a, b] ↔ x ∈ fs ∧ x ≠ a ∧ x ≠ b := by
  simp only [cleanupTempFiles, List.foldl, List.mem_filter, decide_eq_true_eq]
  tauto

end ProofGenerator

/-! ## Claim theorems -/

/-- C4: witness computation reports success exactly when the subprocess
completed without error, the output file exists, and the output file is
non-empty; in particular an absent or zero-byte output file fails the
operation even when the subprocess itself succeeded. -/
theorem witness_success_iff_output_present (r : ProofGenerator.WitnessRun) :
    ProofGenerator.generateWitnessWithExternalScript r = .ok () ↔
      r.execErr = none ∧ r.outExists = true ∧ r.outSize ≠ 0 := by
  obtain ⟨e, ex, sz⟩ := r
  cases e with
  | some err =>
    simp [ProofGenerator.generateWitnessWithExternalScript,
      ProofGenerator.witnessTryBody]
  | none =>
    cases ex <;> by_cases hz : sz = 0 <;>
      simp [ProofGenerator.generateWitnessWithExternalScript,
        ProofGenerator.witnessTryBody, hz]

/-- C5: after every witness-computation invocation inside
`generateProofWithExternalScript`, whether the witness step or the
proving step succeeded or failed, neither the temporary input file nor
the temporary witness file of that invocation remains in the final
file-system state; and the timestamp-qualified filenames of distinct
invocations never collide (nor do the input and witness names of any
two invocations). -/
theorem tempfiles_cleaned_and_unique :
    (∀ (r : ProofGenerator.ProofGenRun) (fs0 : List String),
      ProofGenerator.inputFileName r.timestamp ∉
        (ProofGenerator.generateProofWithExternalScriptFiles r fs0).2 ∧
      ProofGenerator.witnessFileName r.timestamp ∉
        (ProofGenerator.generateProofWithExternalScriptFiles r fs0).2) ∧
    (∀ t u : Nat, t ≠ u →
      ProofGenerator.inputFileName t ≠ ProofGenerator.inputFileName u ∧
      ProofGenerator.witnessFileName t ≠ ProofGenerator.witnessFileName u) ∧
    (∀ t u : Nat, ProofGenerator.inputFileName t ≠ ProofGenerator.witnessFileName u) := by
  refine ⟨?_, ?_, ?_⟩
  · intro r fs0
    obtain ⟨t, w, p⟩ := r
    cases w <;> cases p <;>
      simp [ProofGenerator.generateProofWithExternalScriptFiles, ProofGenerator.mem_cleanup]
  · intro t u htu
    constructor
    · intro h
      exact htu (natRepr_injective (string_append_inner_inj "input_" ".json" _ _ h))
    · intro h
      exact htu (natRepr_injective (string_append_inner_inj "witness_" ".wtns" _ _ h))
  · intro t u h
    have : ("input_" ++ Nat.repr t ++ ".json").data =
        ("witness_" ++ Nat.repr u ++ ".wtns").data := congrArg String.data h
    simp [String.data_append] at this

/-- C5 witness: cleanup and uniqueness at a concrete run. -/
theorem tempfiles_cleaned_and_unique_witness :
    ProofGenerator.inputFileName 3 ∉
      (ProofGenerator.generateProofWithExternalScriptFiles ⟨3, some "boom", none⟩
        ["a.txt"]).2 ∧
    ProofGenerator.inputFileName 3 ≠ ProofGenerator.inputFileName 4 :=
  ⟨(tempfiles_cleaned_and_unique.1 ⟨3, some "boom", none⟩ ["a.txt"]).1,
   (tempfiles_cleaned_and_unique.2.1 3 4 (by decide)).1⟩

theorem stringToAsciiArray_of_length_le {s : List Char} {n : Nat} (h : s.length ≤ n) :
    stringToAsciiArray s n = s.map Char.toNat ++ List.replicate (n - s.length) 0 := by
  simp [stringToAsciiArray, List.take_of_length_le h]

/-- C8: per artifact slot the resolver probes the primary filename and
then the alternates in listed order and binds to the first existing
path; a slot is reported missing exactly when neither the primary nor
any alternate exists; the bundle is complete exactly when all four slots
resolved, and completeness gates the proof-generation menu choice. -/
theorem file_resolution_first_match_and_gating :
    (∀ (ex : String → Bool) (s : ZKPLicenseApp.FileSlot),
      ZKPLicenseApp.resolveSlot ex s = (s.primary :: s.alt).find? ex) ∧
    (∀ (ex : String → Bool) (s : ZKPLicenseApp.FileSlot) (f : String),
      ZKPLicenseApp.resolveSlot ex s = some f →
        ex f = true ∧ ∃ before after, s.primary :: s.alt = before ++ f :: after ∧
          ∀ g ∈ before, ex g = false) ∧
    (∀ (ex : String → Bool) (s : ZKPLicenseApp.FileSlot),
      ZKPLicenseApp.resolveSlot ex s = none ↔
        ex s.primary = false ∧ ∀ a ∈ s.alt, ex a = false) ∧
    (∀ ex : String → Bool,
      ("Fichier WASM du circuit (.wasm)" ∈
          ZKPLicenseApp.missingReport (ZKPLicenseApp.checkRequiredFiles ex) ↔
        (ZKPLicenseApp.checkRequiredFiles ex).wasm = none) ∧
      ("Clé de preuve (.zkey)" ∈
          ZKPLicenseApp.missingReport (ZKPLicenseApp.checkRequiredFiles ex) ↔
        (ZKPLicenseApp.checkRequiredFiles ex).zkey = none) ∧
      ("Clé de vérification (.json)" ∈
          ZKPLicenseApp.missingReport (ZKPLicenseApp.checkRequiredFiles ex) ↔
        (ZKPLicenseApp.checkRequiredFiles ex).vkey = none) ∧
      ("Script generate_witness.cjs (OBLIGATOIRE)" ∈
          ZKPLicenseApp.missingReport (ZKPLicenseApp.checkRequiredFiles ex) ↔
        (ZKPLicenseApp.checkRequiredFiles ex).witness = none)) ∧
    (∀ cf : ZKPLicenseApp.CurrentFiles,
      ZKPLicenseApp.generateChoiceDisabled cf = false ↔
        cf.wasm.isSome ∧ cf.zkey.isSome ∧ cf.vkey.isSome ∧ cf.witness.isSome) := by
  refine ⟨?_, ?_, ?_, ?_, ?_⟩
  · intro ex s
    by_cases h : ex s.primary <;> simp [ZKPLicenseApp.resolveSlot, h, List.find?]
  · intro ex s f h
    by_cases hp : ex s.primary
    · simp [ZKPLicenseApp.resolveSlot, hp] at h
      subst h
      exact ⟨hp, [], s.alt, rfl, by simp⟩
    · simp [ZKPLicenseApp.resolveSlot, hp] at h
      rw [List.find?_eq_some] at h
      obtain ⟨hf, as, bs, heq, hall⟩ := h
      refine ⟨hf, s.primary :: as, bs, by simp [heq], ?_⟩
      intro g hg
      rcases List.mem_cons.mp hg with rfl | hg2
      · simpa using hp
      · simpa using hall g hg2
  · intro ex s
    by_cases h : ex s.primary <;>
      simp [ZKPLicenseApp.resolveSlot, h, List.find?_eq_none]
  · intro ex
    have hmr : ∀ cf : ZKPLicenseApp.CurrentFiles,
        ("Fichier WASM du circuit (.wasm)" ∈ ZKPLicenseApp.missingReport cf ↔
          cf.wasm = none) ∧
        ("Clé de preuve (.zkey)" ∈ ZKPLicenseApp.missingReport cf ↔ cf.zkey = none) ∧
        ("Clé de vérification (.json)" ∈ ZKPLicenseApp.missingReport cf ↔
          cf.vkey = none) ∧
        ("Script generate_witness.cjs (OBLIGATOIRE)" ∈ ZKPLicenseApp.missingReport cf ↔
          cf.witness = none) := by
      intro cf
      obtain ⟨w, z, v, t⟩ := cf
      cases w <;> cases z <;> cases v <;> cases t <;>
        simp [ZKPLicenseApp.missingReport]
    exact hmr (ZKPLicenseApp.checkRequiredFiles ex)
  · intro cf
    simp [ZKPLicenseApp.generateChoiceDisabled, ZKPLicenseApp.allFilesPresent, and_assoc]

/-- C8 witness: on a file system holding only `LicenseB.wasm`, the wasm
slot binds to it and it is the first existing name in probe order. -/
theorem file_resolution_witness :
    (fun f => f == "LicenseB.wasm") "LicenseB.wasm" = true ∧
    ∃ before after,
      ("circuit.wasm" :
          String) :: ["LicenseA.wasm", "LicenseB.wasm", "LicenseC.wasm"] =
        before ++ "LicenseB.wasm" :: after ∧
      ∀ g ∈ before, (fun f => f == "LicenseB.wasm") g = false :=
  file_resolution_first_match_and_gating.2.1 (fun f => f == "LicenseB.wasm")
    ⟨"circuit.wasm", ["LicenseA.wasm", "LicenseB.wasm", "LicenseC.wasm"]⟩
    "LicenseB.wasm" (by decide)

/-- C9 helper: the loop result at index `i`, shifted start index. -/
theorem batchResults_get? :
    ∀ (items : List BatchVerifier.BackendOutcome) (k i : Nat),
      (BatchVerifier.batchResults k items).get? i =
        (items.get? i).map (fun o => BatchVerifier.verifyOne (k + i) o) := by
  intro items
  induction items with
  | nil => intro k i; simp [BatchVerifier.batchResults]
  | cons o rest ih =>
    intro k i
    cases i with
    | zero => simp [BatchVerifier.batchResults]
    | succ j =>
        have := ih (k + 1) j
        simpa [BatchVerifier.batchResults, Nat.add_assoc, Nat.add_comm 1 j] using this

theorem batchResults_length (items : List BatchVerifier.BackendOutcome) :
    ∀ k, (BatchVerifier.batchResults k items).length = items.length := by
  induction items with
  | nil => intro k; rfl
  | cons o rest ih => intro k; simp [BatchVerifier.batchResults, ih]

/-- C9: batch verification processes each proof independently: the
report lists one result per input in input order, the result at index
`i` is a function of item `i` alone, a backend failure on one item is
recorded in that entry (the loop does not abort), and the report
aggregates total count, valid count, invalid count, total time and mean
time. -/
theorem batch_items_independent_and_aggregated
    (items : List BatchVerifier.BackendOutcome) (elapsed : Nat) :
    (BatchVerifier.batchVerify items elapsed).results.length = items.length ∧
    (∀ i, (BatchVerifier.batchVerify items elapsed).results.get? i =
      (items.get? i).map (BatchVerifier.verifyOne i)) ∧
    (∀ i m, items.get? i = some (.failure m) →
      (BatchVerifier.batchVerify items elapsed).results.get? i =
        some ⟨i, false, none, some m, "Erreur de vérification"⟩) ∧
    (BatchVerifier.batchVerify items elapsed).total = items.length ∧
    (BatchVerifier.batchVerify items elapsed).valid =
      ((BatchVerifier.batchVerify items elapsed).results.countP (·.valid)) ∧
    (BatchVerifier.batchVerify items elapsed).invalid =
      items.length - (BatchVerifier.batchVerify items elapsed).valid ∧
    (BatchVerifier.batchVerify items elapsed).totalTime = elapsed ∧
    (BatchVerifier.batchVerify items elapsed).averageTime =
      (elapsed : ℚ) / (items.length : ℚ) := by
  refine ⟨?_, ?_, ?_, rfl, rfl, rfl, rfl, rfl⟩
  · simpa [BatchVerifier.batchVerify] using batchResults_length items 0
  · intro i
    simpa [BatchVerifier.batchVerify] using batchResults_get? items 0 i
  · intro i m h
    have h2 := batchResults_get? items 0 i
    rw [h] at h2
    simpa [BatchVerifier.batchVerify, BatchVerifier.verifyOne] using h2

/-- C9 witness: a three-item batch where the middle item fails still
yields three ordered entries, with the failure recorded at index 1. -/
theorem batch_items_witness :
    (BatchVerifier.batchVerify
      [.answer true 5, .failure "bad proof", .answer false 7] 30).results.get? 1 =
      some ⟨1, false, none, some "bad proof", "Erreur de vérification"⟩ :=
  (batch_items_independent_and_aggregated
    [.answer true 5, .failure "bad proof", .answer false 7] 30).2.2.1 1 "bad proof" rfl

/-- C2: a name or surname longer than its declared width of 16 makes the
proof-generation encoding fail with a validation error rather than
silently truncating; at exactly the declared width (with the other
fields valid) encoding succeeds and the encoded field is exactly the
character-code sequence of the input, zero-padded on the right to the
fixed width (the padding being empty at the exact width). -/
theorem width_enforcement :
    (∀ (u : ProofGenerator.UserInput) (wit : Bool),
      u.name.length > 16 ∨ u.surname.length > 16 →
        ∃ e, ProofGenerator.generateProofInput u wit = .error e) ∧
    (∀ u : ProofGenerator.UserInput,
      u.name.length = 16 → u.surname.length = 16 →
      matchesDateFormat u.dob = true →
      u.license = ['A'] ∨ u.license = ['B'] ∨ u.license = ['C'] →
      ProofGenerator.generateProofInput u true =
        .ok ⟨u.name.map Char.toNat, u.surname.map Char.toNat,
             stringToAsciiArray u.dob 10, [(u.license.headD nul).toNat]⟩) := by
  constructor
  · intro u wit h
    have hne : ProofGenerator.validateInputsErrors u ≠ [] := by
      rcases h with h | h
      · simp [ProofGenerator.validateInputsErrors, List.append_eq_nil]
        omega
      · simp [ProofGenerator.validateInputsErrors, List.append_eq_nil]
        omega
    refine ⟨"Erreurs de validation:\n" ++
      String.intercalate "\n" (ProofGenerator.validateInputsErrors u), ?_⟩
    simp [ProofGenerator.generateProofInput, hne]
  · intro u hn hs hd hl
    have he : ProofGenerator.validateInputsErrors u = [] := by
      rcases hl with hl | hl | hl <;>
        simp [ProofGenerator.validateInputsErrors, hn, hs, hd, hl]
    simp [ProofGenerator.generateProofInput, he, formatDateToAscii, hd,
      stringToAsciiArray_of_length_le (Nat.le_of_eq hn),
      stringToAsciiArray_of_length_le (Nat.le_of_eq hs), hn, hs]

/-- C2 witness: a 17-character name fails, a 16-character name encodes
to its exact character codes. -/
theorem width_enforcement_witness :
    (∃ e, ProofGenerator.generateProofInput
      ⟨"abcdefghijklmnopq".toList, "Doe".toList, "1990-01-01".toList, ['A']⟩ true =
        .error e) ∧
    ProofGenerator.generateProofInput
      ⟨"abcdefghijklmnop".toList, "ABCDEFGHIJKLMNOP".toList, "1990-01-01".toList,
        ['A']⟩ true =
      .ok ⟨"abcdefghijklmnop".toList.map Char.toNat,
           "ABCDEFGHIJKLMNOP".toList.map Char.toNat,
           stringToAsciiArray "1990-01-01".toList 10,
           [(['A'].headD nul).toNat]⟩ :=
  ⟨width_enforcement.1 _ true (by left; decide),
   width_enforcement.2 _ (by decide) (by decide) (by decide) (by left; decide)⟩

/-- A well-formed Groth16 proof object used as a sample payload. -/
def sampleBare : ProofVerifier.BareProof :=
  ⟨some (.arr [.str "1", .str "2", .str "1"]),
   some (.arr [.arr [.str "1", .str "2"], .arr [.str "3", .str "4"],
               .arr [.str "1", .str "0"]]),
   some (.arr [.str "5", .str "6", .str "1"])⟩

/-- A container payload holding the sample proof and one public signal. -/
def samplePayload : ProofVerifier.ProofPayload :=
  ⟨some sampleBare, some [.str "1"], ⟨none, none, none⟩⟩

/-- A verification key whose four fields are present. -/
def sampleVKey : ProofVerifier.VKey := ⟨true, true, true, true⟩

/-- C6: a bare payload whose `pi_b` component is absent is rejected with
the unrecognized-proof-format error; a container payload whose proof
object lacks `pi_b` is rejected with the missing-`pi_b` format error;
and a well-formed bare-proof payload with no public signals attached and
none separately supplied fails with the missing-public-signals error
rather than the verifier inventing signals. -/
theorem proof_shape_and_missing_signals :
    (∀ (p : ProofVerifier.ProofPayload) (sig : Option (List ProofVerifier.JsSignal))
        (ve : Bool) (vr : Except String ProofVerifier.VKey)
        (bk : Except String Bool),
      (p.proof.isNone ∨ p.publicSignals.isNone) → p.bare.pi_b = none →
        ProofVerifier.verifyProof (some p) sig ve vr bk =
          .error ("Erreur lors de la vérification: Format de preuve non reconnu. " ++
            "Fichier doit contenir pi_a, pi_b, pi_c ou proof/publicSignals")) ∧
    (∀ (pr : ProofVerifier.BareProof) (sigl : List ProofVerifier.JsSignal)
        (bare : ProofVerifier.BareProof) (sig : Option (List ProofVerifier.JsSignal))
        (ve : Bool) (vr : Except String ProofVerifier.VKey)
        (bk : Except String Bool),
      ProofVerifier.optTruthy pr.pi_a = true → pr.pi_b = none →
        ProofVerifier.verifyProof (some ⟨some pr, some sigl, bare⟩) sig ve vr bk =
          .error ("Erreur lors de la vérification: Validation échouée: " ++
            "Champ manquant dans la preuve: pi_b")) ∧
    (∀ (p : ProofVerifier.ProofPayload) (ve : Bool)
        (vr : Except String ProofVerifier.VKey) (bk : Except String Bool),
      (p.proof.isNone ∨ p.publicSignals.isNone) →
      ProofVerifier.validateProofFormat p.bare = .ok () →
        ProofVerifier.verifyProof (some p) none ve vr bk =
          .error ("Erreur lors de la vérification: Validation échouée: " ++
            "Signaux publics manquants")) := by
  refine ⟨?_, ?_, ?_⟩
  · intro p sig ve vr bk hshape hb
    obtain ⟨pf, ps, bare⟩ := p
    simp only [ProofVerifier.verifyProof, ProofVerifier.verifyProofTryBody,
      ProofVerifier.extractProofData]
    have hbt : ProofVerifier.optTruthy bare.pi_b = false := by
      simp at hb
      simp [hb, ProofVerifier.optTruthy]
    rcases hshape with h | h
    · simp at h
      simp [h, hbt]
    · simp at h
      cases pf <;> simp [h, hbt]
  · intro pr sigl bare sig ve vr bk ha hb
    simp only [ProofVerifier.verifyProof, ProofVerifier.verifyProofTryBody,
      ProofVerifier.extractProofData, ProofVerifier.validateProofConsistency,
      ProofVerifier.validateProofFormat]
    have hbt : ProofVerifier.optTruthy pr.pi_b = false := by
      simp [hb, ProofVerifier.optTruthy]
    simp [ha, hbt]
  · intro p ve vr bk hshape hfmt
    obtain ⟨pf, ps, bare⟩ := p
    have htru : ProofVerifier.optTruthy bare.pi_a = true ∧
        ProofVerifier.optTruthy bare.pi_b = true ∧
        ProofVerifier.optTruthy bare.pi_c = true := by
      by_contra hc
      simp only [ProofVerifier.validateProofFormat] at hfmt
      rcases Decidable.not_and_iff_or_not.mp hc with h | hc2
      · simp [eq_false_of_ne_true h] at hfmt
      · rcases Decidable.not_and_iff_or_not.mp hc2 with h | h
        · rcases hb : ProofVerifier.optTruthy bare.pi_a with _ | _ <;>
            simp [hb, eq_false_of_ne_true h] at hfmt
        · rcases hb : ProofVerifier.optTruthy bare.pi_a with _ | _ <;>
            rcases hb2 : ProofVerifier.optTruthy bare.pi_b with _ | _ <;>
            simp [hb, hb2, eq_false_of_ne_true h] at hfmt
    simp only [ProofVerifier.verifyProof, ProofVerifier.verifyProofTryBody,
      ProofVerifier.extractProofData, ProofVerifier.validateProofConsistency,
      ProofVerifier.validatePublicSignals]
    rcases hshape with h | h
    · simp at h
      simp [h, htru.1, htru.2.1, htru.2.2, hfmt]
    · simp at h
      cases pf <;> simp [h, htru.1, htru.2.1, htru.2.2, hfmt]

/-- C6 witness: concrete payloads exercising all three rejections. -/
theorem proof_shape_and_missing_signals_witness :
    ProofVerifier.verifyProof
        (some ⟨none, some [.str "1"], ⟨some (.arr [.str "1", .str "2", .str "1"]), none,
          some (.arr [.str "5", .str "6", .str "1"])⟩⟩)
        none true (.ok sampleVKey) (.ok true) =
      .error ("Erreur lors de la vérification: Format de preuve non reconnu. " ++
        "Fichier doit contenir pi_a, pi_b, pi_c ou proof/publicSignals") ∧
    ProofVerifier.verifyProof
        (some ⟨none, none, sampleBare⟩) none true (.ok sampleVKey) (.ok true) =
      .error ("Erreur lors de la vérification: Validation échouée: " ++
        "Signaux publics manquants") :=
  ⟨proof_shape_and_missing_signals.1 _ none true (.ok sampleVKey) (.ok true)
      (Or.inl rfl) rfl,
   proof_shape_and_missing_signals.2.2 ⟨none, none, sampleBare⟩ true
      (.ok sampleVKey) (.ok true) (Or.inl rfl) rfl⟩

/-- C7 counterexample: the backend error `boom` is not forwarded
unchanged — the caller receives a new error with a French prefix. -/
theorem error_not_forwarded_unchanged :
    ProofVerifier.verifyProof (some samplePayload) none true (.ok sampleVKey)
        (.error "boom") ≠ .error "boom" ∧
    ProofVerifier.verifyProof (some samplePayload) none true (.ok sampleVKey)
        (.error "boom") = .error "Erreur lors de la vérification: boom" := by
  constructor
  · intro h
    simp [ProofVerifier.verifyProof, ProofVerifier.verifyProofTryBody, samplePayload,
      ProofVerifier.extractProofData, ProofVerifier.validateProofConsistency,
      ProofVerifier.validateProofFormat, ProofVerifier.validatePublicSignals,
      ProofVerifier.checkSignals, ProofVerifier.isDigitString, sampleBare, sampleVKey,
      ProofVerifier.optTruthy, ProofVerifier.jsTruthy, isDigitChar] at h
  · rfl

/-- C7 (amended): every failing stage fails fast — no error is swallowed
into a success — but the originating error is rewrapped, not forwarded
unchanged: the verifier prepends `Erreur lors de la vérification: ` to
the originating message, and the proof generator prepends
`Génération de preuve échouée: ` to a witness-stage or proving-stage
message. -/
theorem error_wrapped_with_prefix :
    (∀ m : String,
      ProofVerifier.verifyProof (some samplePayload) none true (.ok sampleVKey)
        (.error m) = .error ("Erreur lors de la vérification: " ++ m)) ∧
    (∀ (t : Nat) (e : String) (fs0 : List String),
      (ProofGenerator.generateProofWithExternalScriptFiles ⟨t, some e, none⟩ fs0).1 =
        .error ("Génération de preuve échouée: " ++ e)) ∧
    (∀ (t : Nat) (e : String) (fs0 : List String),
      (ProofGenerator.generateProofWithExternalScriptFiles ⟨t, none, some e⟩ fs0).1 =
        .error ("Génération de preuve échouée: " ++ e)) := by
  refine ⟨?_, ?_, ?_⟩
  · intro m
    rfl
  · intro t e fs0
    rfl
  · intro t e fs0
    rfl

/-- C3: date validation before proof generation rejects every
date-of-birth string that fails the `YYYY-MM-DD` format or does not
denote a real calendar date; `2000-02-30` is rejected, `2000-02-29`
(leap year) is accepted, `1999-02-29` is rejected. -/
theorem date_validation_rejects_unreal :
    (∀ s : List Char,
      (matchesDateFormat s = false ∨
        isRealDate (dateComponents s).1 (dateComponents s).2.1
          (dateComponents s).2.2 = false) →
      validateDate s ≠ .ok ()) ∧
    validateDate "2000-02-30".toList = .error "Date invalide" ∧
    validateDate "2000-02-29".toList = .ok () ∧
    validateDate "1999-02-29".toList = .error "Date invalide" := by
  refine ⟨?_, by rfl, by rfl, by rfl⟩
  intro s h
  by_cases hf : matchesDateFormat s
  · rcases h with h | h
    · rw [hf] at h
      cases h
    · rcases hc : dateComponents s with ⟨y, m, d⟩
      rw [hc] at h
      simp only at h
      simp [validateDate, hf, jsDateParse, hc, h]
  · simp [validateDate, hf]

/-- C3 witness: the format-conforming but unreal date `2000-13-01` is
rejected. -/
theorem date_validation_witness : validateDate "2000-13-01".toList ≠ .ok () :=
  date_validation_rejects_unreal.1 _ (Or.inr (by decide))

/-! ### C10 helpers -/

def lowerHexDigits : List Char := "0123456789abcdef".toList

theorem hexDigit_spec : ∀ c ∈ lowerHexDigits,
    WitnessGenerator.hexDigitVal c < 16 ∧
    Nat.digitChar (WitnessGenerator.hexDigitVal c) = c := by decide

theorem bitsByte_byteBits : ∀ b < 256,
    WitnessGenerator.bitsByte (WitnessGenerator.byteBits b) = b := by decide

theorem padStart2_toDigits : ∀ b < 256,
    WitnessGenerator.padStart2 (Nat.toDigits 16 b) =
      [Nat.digitChar (b / 16), Nat.digitChar (b % 16)] := by decide

theorem byteBits_bits (b : Nat) : ∀ x ∈ WitnessGenerator.byteBits b, x = 0 ∨ x = 1 := by
  intro x hx
  simp only [WitnessGenerator.byteBits, List.mem_cons, List.mem_singleton,
    List.not_mem_nil, or_false] at hx
  rcases hx with h | h | h | h | h | h | h | h <;> subst h <;>
    rw [Nat.and_one_is_mod] <;> omega

theorem hexRoundTripAux : ∀ h : List Char, h.length % 2 = 0 →
    (∀ c ∈ h, c ∈ lowerHexDigits) →
    WitnessGenerator.bitArrayToHex (WitnessGenerator.hexToBitArray h) = h
  | [] => by
    intro _ _
    rfl
  | [c] => by
    intro h1 _
    simp at h1
  | c1 :: c2 :: rest => by
    intro h1 h2
    have hc1 := hexDigit_spec c1 (h2 c1 (by simp))
    have hc2 := hexDigit_spec c2 (h2 c2 (by simp))
    have hrest : ∀ c ∈ rest, c ∈ lowerHexDigits := fun c hc => h2 c (by simp [hc])
    have hb : 16 * WitnessGenerator.hexDigitVal c1 + WitnessGenerator.hexDigitVal c2
        < 256 := by omega
    have hstep :
        WitnessGenerator.bitArrayToHex
            (WitnessGenerator.hexToBitArray (c1 :: c2 :: rest)) =
          WitnessGenerator.padStart2 (Nat.toDigits 16 (WitnessGenerator.bitsByte
            (WitnessGenerator.byteBits
              (16 * WitnessGenerator.hexDigitVal c1 + WitnessGenerator.hexDigitVal c2))))
            ++ WitnessGenerator.bitArrayToHex (WitnessGenerator.hexToBitArray rest) := rfl
    rw [hstep, bitsByte_byteBits _ hb, padStart2_toDigits _ hb]
    have hdiv : (16 * WitnessGenerator.hexDigitVal c1 +
        WitnessGenerator.hexDigitVal c2) / 16 = WitnessGenerator.hexDigitVal c1 := by
      omega
    have hmod : (16 * WitnessGenerator.hexDigitVal c1 +
        WitnessGenerator.hexDigitVal c2) % 16 = WitnessGenerator.hexDigitVal c2 := by
      omega
    rw [hdiv, hmod, hc1.2, hc2.2,
      hexRoundTripAux rest (by simp at h1; omega) hrest]
    rfl

theorem hexToBitArray_length : ∀ h : List Char, h.length % 2 = 0 →
    (WitnessGenerator.hexToBitArray h).length = 4 * h.length
  | [] => by
    intro _
    rfl
  | [c] => by
    intro h1
    simp at h1
  | c1 :: c2 :: rest => by
    intro h1
    have := hexToBitArray_length rest (by simp at h1; omega)
    simp [WitnessGenerator.hexToBitArray, WitnessGenerator.byteBits, this]
    omega

theorem hexToBitArray_bits : ∀ h : List Char,
    ∀ b ∈ WitnessGenerator.hexToBitArray h, b = 0 ∨ b = 1
  | [] => by simp [WitnessGenerator.hexToBitArray]
  | [c] => by
    simpa [WitnessGenerator.hexToBitArray] using byteBits_bits _
  | c1 :: c2 :: rest => by
    intro b hb
    rcases List.mem_append.mp hb with h | h
    · exact byteBits_bits _ b h
    · exact hexToBitArray_bits rest b h

/-- C10: for every even-length lowercase hexadecimal string, converting
to a bit array and back is the identity, the bit array has exactly four
bits per hex character, and every entry of the bit array is 0 or 1. -/
theorem hex_bit_roundtrip (h : List Char) (heven : h.length % 2 = 0)
    (hhex : ∀ c ∈ h, c ∈ lowerHexDigits) :
    WitnessGenerator.bitArrayToHex (WitnessGenerator.hexToBitArray h) = h ∧
    (WitnessGenerator.hexToBitArray h).length = 4 * h.length ∧
    ∀ b ∈ WitnessGenerator.hexToBitArray h, b = 0 ∨ b = 1 :=
  ⟨hexRoundTripAux h heven hhex, hexToBitArray_length h heven, hexToBitArray_bits h⟩

/-- C10 witness: the round trip on the concrete hex string `0af37b`. -/
theorem hex_bit_roundtrip_witness :
    WitnessGenerator.bitArrayToHex
        (WitnessGenerator.hexToBitArray "0af37b".toList) = "0af37b".toList ∧
    (WitnessGenerator.hexToBitArray "0af37b".toList).length = 4 * 6 :=
  ⟨(hex_bit_roundtrip "0af37b".toList (by decide) (by decide)).1,
   (hex_bit_roundtrip "0af37b".toList (by decide) (by decide)).2.1⟩

/-- C1: `calculateCommitment` (and its twin `calculateCommitmentHex`)
computes exactly the SHA-256 hex digest, over UTF-8 bytes, of
padded-name + padded-surname + dob + category + expiration + nonce, and
being a pure function of those inputs it is deterministic; but the
registration script does **not** recompute this same value: on the
documented example attributes its unpadded concatenation hashes to a
different digest, so the commitment it publishes differs from the
specified one under either representation. -/
theorem commitment_components_diverge :
    (∀ name surname dob lic exp nonce : List Char,
      LicenseVerificationSystem.calculateCommitment name surname dob lic exp nonce =
        bytesToHex (specCommitmentBytes name surname dob lic exp nonce)) ∧
    WitnessGenerator.calculateCommitmentHex =
      LicenseVerificationSystem.calculateCommitment ∧
    sha256Bytes (utf8Encode (registerUserConcat "Jean".toList "Durand".toList
        "2000-01-01".toList "A".toList "2026-01-01".toList "x7Tr9sP0".toList)) ≠
      specCommitmentBytes "Jean".toList "Durand".toList "2000-01-01".toList
        "A".toList "2026-01-01".toList "x7Tr9sP0".toList ∧
    registerUserCommitment "Jean".toList "Durand".toList "2000-01-01".toList
        "A".toList "2026-01-01".toList "x7Tr9sP0".toList ≠
      [Nat.repr (bytesBE ((specCommitmentBytes "Jean".toList "Durand".toList
          "2000-01-01".toList "A".toList "2026-01-01".toList "x7Tr9sP0".toList).take 16)),
       Nat.repr (bytesBE ((specCommitmentBytes "Jean".toList "Durand".toList
          "2000-01-01".toList "A".toList "2026-01-01".toList
          "x7Tr9sP0".toList).drop 16))] :=
  ⟨fun _ _ _ _ _ _ => rfl, rfl, by decide, by decide⟩

end ZKIV
